import Mathlib

/-!
Shallow embedding of `web.go` from the `13k/go-steam` repository (package
`steam`, type `Web`): the secure web-session authentication handshake.

The embedding models the source faithfully:
* the `Web` struct keeps its Go field names (`relogOnNonce` is the Go
  `uint32` used as an atomic 0/1 flag, modelled as a `Nat`);
* external collaborators (`crypto/rand`, `cryptoutil.RSAEncrypt`,
  `aes.NewCipher`, `cryptoutil.SymmetricEncrypt`, `http.PostForm`,
  `json.Decode`, the client's SteamID) are explicit environments whose
  fallible calls return `Except GoError`;
* every function returns, next to the updated state, the full trace of its
  observable effects: protocol messages written (`client.Write`), events
  emitted (`client.Emit`), diagnostic logs (`client.Errorf`), the HTTP
  request issued (if any), and the Go `error` return value
  (`Option GoError`, `none` being Go's `nil`);
* the `go func` body of `LogOn` (the unrolled triple retry) is modelled by
  `goBody`, run to completion; `LogOn` records both its synchronous return
  value and whether the goroutine was scheduled.
-/

set_option maxHeartbeats 1000000

namespace GoSteamWeb

/-- A Go `error` value as it appears in `web.go`: the fixed error created by
`errors.New("steam/web: session not initialized")`, the formatted error
`fmt.Errorf("web: request failed with status %s", resp.Status)`, and opaque
errors produced by external collaborators (rand, crypto, HTTP transport,
JSON decoding, packet decoding). -/
inductive GoError where
  | sessionNotInit : GoError
  | requestFailed : String → GoError
  | errMsg : String → GoError
deriving DecidableEq, Repr

/-- The message text of a `GoError` (Go's `err.Error()`), used by `Errorf`
logging. -/
def GoError.message : GoError → String
  | .sessionNotInit => "steam/web: session not initialized"
  | .requestFailed status => "web: request failed with status " ++ status
  | .errMsg s => s

/-- The 32-byte buffer `sessionKey := make([]byte, 32)` after a successful
`rand.Read`: `rand.Read` on a 32-byte buffer either fails or fills all 32
bytes. -/
structure Bytes32 where
  bytes : List Nat
  len32 : bytes.length = 32

/-- An `*rsa.PublicKey` as returned by `GetPublicKey` (abstract). -/
structure PublicKey where
  modulus : Nat
  exponent : Nat
deriving DecidableEq, Repr

/-- A `cipher.Block` as returned by `aes.NewCipher(sessionKey)` (abstract). -/
structure Cipher where
  key : List Nat
deriving DecidableEq, Repr

/-- `steamlang.EUniverse`. `apiLogOn` always selects
`steamlang.EUniverse_Public`. -/
inductive EUniverse where
  | Invalid | Public | Beta | Internal | Dev
deriving DecidableEq, Repr

/-- Events emitted through `w.client.Emit` in `web.go`:
`WebLogOnErrorEvent(err)`, `&WebLoggedOnEvent{}` and
`&WebSessionIDEvent{}`. -/
inductive Event where
  | WebLogOnError : GoError → Event
  | WebLoggedOn : Event
  | WebSessionID : Event
deriving DecidableEq, Repr

/-- Protocol messages written through `w.client.Write` in `web.go`:
the bodyless `CMsgClientRequestWebAPIAuthenticateUserNonce` request and the
`CMsgClientNewLoginKeyAccepted{UniqueId: ...}` acknowledgment. -/
inductive OutMsg where
  | ClientRequestWebAPIAuthenticateUserNonce : OutMsg
  | ClientNewLoginKeyAccepted : Nat → OutMsg
deriving DecidableEq, Repr

/-- The form fields of the `http.PostForm` request built in `apiLogOn`:
`format=json`, `steamid=<decimal id>`, `sessionkey=<encrypted session key>`,
`encrypted_loginkey=<encrypted login key>` (the two byte strings are sent
verbatim). -/
structure HTTPRequest where
  format : String
  steamid : String
  sessionkey : List Nat
  encrypted_loginkey : List Nat
deriving DecidableEq, Repr

/-- The JSON body `{ "authenticateuser": { "token": ..., "tokensecure": ... } }`
decoded by `apiLogOn` on a 200 response (the anonymous Go result struct). -/
structure AuthenticateUserResult where
  Token : String
  TokenSecure : String
deriving DecidableEq, Repr

/-- An HTTP response as observed by `apiLogOn`: its status code, its status
text (`resp.Status`, used in the error message), and the outcome of running
`json.NewDecoder(resp.Body).Decode` on its body. -/
structure HTTPResponse where
  StatusCode : Nat
  Status : String
  decodeAuth : Except GoError AuthenticateUserResult

/-- The per-attempt external world of one `apiLogOn` call: the outcome of
`rand.Read(sessionKey)` (a fresh draw from `crypto/rand` for this attempt),
and the outcome of `http.PostForm` (transport error or response). -/
structure AttemptEnv where
  randRead : Except GoError Bytes32
  postForm : Except GoError HTTPResponse

/-- The static external collaborators of `web.go`: the public-key registry
`GetPublicKey`, `cryptoutil.RSAEncrypt`, `aes.NewCipher`,
`cryptoutil.SymmetricEncrypt`, and the client's
`SteamID().FormatString()`. -/
structure Ext where
  GetPublicKey : EUniverse → PublicKey
  RSAEncrypt : PublicKey → List Nat → Except GoError (List Nat)
  NewCipher : List Nat → Except GoError Cipher
  SymmetricEncrypt : Cipher → List Nat → Except GoError (List Nat)
  steamID : String

/-- The `Web` struct of `web.go`, Go field names kept. `relogOnNonce` is the
atomically accessed `uint32` flag (values 0/1); the remaining fields are the
`sessionid` cookie, the `steamLogin` cookie, the `steamLoginSecure` cookie,
and the current web login key (the opaque secret). -/
structure Web where
  relogOnNonce : Nat
  SessionID : String
  SteamLogin : String
  SteamLoginSecure : String
  webLoginKey : String
deriving DecidableEq, Repr

/-- UTF-8 encoding of one character (Go strings are UTF-8; `[]byte(s)` yields
the UTF-8 bytes). -/
def charUTF8 (c : Char) : List Nat :=
  let n := c.toNat
  if n < 128 then [n]
  else if n < 2048 then [192 + n / 64, 128 + n % 64]
  else if n < 65536 then [224 + n / 4096, 128 + n / 64 % 64, 128 + n % 64]
  else [240 + n / 262144, 128 + n / 4096 % 64, 128 + n / 64 % 64, 128 + n % 64]

/-- Go's `[]byte(s)`: the UTF-8 bytes of a string. -/
def utf8Bytes (s : String) : List Nat :=
  (s.toList.map charUTF8).flatten

/-- The standard base-64 alphabet used by Go's `base64.StdEncoding`. -/
def base64Table : List Char :=
  "ABCDEFGHIJKLMNOPQRSTUVWXYZabcdefghijklmnopqrstuvwxyz0123456789+/".toList

/-- The base-64 digit for a 6-bit value. -/
def b64Char (i : Nat) : Char := base64Table.getD i 'A'

/-- Standard base-64 encoding of a byte list, 3 bytes to 4 digits with `=`
padding, as in Go's `base64.StdEncoding.EncodeToString`. -/
def base64Chars : List Nat → List Char
  | [] => []
  | [b1] => [b64Char (b1 / 4), b64Char (b1 % 4 * 16), '=', '=']
  | [b1, b2] => [b64Char (b1 / 4), b64Char (b1 % 4 * 16 + b2 / 16), b64Char (b2 % 16 * 4), '=']
  | b1 :: b2 :: b3 :: rest =>
      b64Char (b1 / 4) :: b64Char (b1 % 4 * 16 + b2 / 16) ::
        b64Char (b2 % 16 * 4 + b3 / 64) :: b64Char (b3 % 64) :: base64Chars rest

/-- Go's `base64.StdEncoding.EncodeToString`. -/
def base64StdEncode (bs : List Nat) : String :=
  String.mk (base64Chars bs)

/-- The result of one `apiLogOn` call: the `Web` state after the call, the
protocol messages written, the events emitted, the HTTP request issued by
`http.PostForm` (`none` when the attempt aborted before issuing it), and the
returned Go error (`none` = `nil`). -/
structure AttemptResult where
  w : Web
  written : List OutMsg
  events : List Event
  request : Option HTTPRequest
  err : Option GoError

/-- `(*Web).apiLogOn` from `web.go`, translated clause by clause:
generate the 32-byte session key with `rand.Read`; RSA-encrypt it under
`GetPublicKey(steamlang.EUniverse_Public)`; build an AES cipher keyed by the
session key; symmetrically encrypt `[]byte(w.webLoginKey)`; `http.PostForm`
the four form fields; on status 401 store 1 into `relogOnNonce`, write one
`ClientRequestWebAPIAuthenticateUserNonce` message and return `nil`; on any
other non-200 status return the formatted error; on 200 decode the body,
returning the decode error on failure, else overwrite `SteamLogin` and
`SteamLoginSecure` and emit one `WebLoggedOnEvent`. Every error return
happens before any state write. -/
def apiLogOn (ext : Ext) (env : AttemptEnv) (w : Web) : AttemptResult :=
  match env.randRead with
  | .error e => ⟨w, [], [], none, some e⟩
  | .ok sessionKey =>
    match ext.RSAEncrypt (ext.GetPublicKey EUniverse.Public) sessionKey.bytes with
    | .error e => ⟨w, [], [], none, some e⟩
    | .ok cryptedSessionKey =>
      match ext.NewCipher sessionKey.bytes with
      | .error e => ⟨w, [], [], none, some e⟩
      | .ok ciph =>
        match ext.SymmetricEncrypt ciph (utf8Bytes w.webLoginKey) with
        | .error e => ⟨w, [], [], none, some e⟩
        | .ok cryptedLoginKey =>
          let req : HTTPRequest := ⟨"json", ext.steamID, cryptedSessionKey, cryptedLoginKey⟩
          match env.postForm with
          | .error e => ⟨w, [], [], some req, some e⟩
          | .ok resp =>
            if resp.StatusCode = 401 then
              ⟨{ w with relogOnNonce := 1 },
                [OutMsg.ClientRequestWebAPIAuthenticateUserNonce], [], some req, none⟩
            else if resp.StatusCode ≠ 200 then
              ⟨w, [], [], some req, some (GoError.requestFailed resp.Status)⟩
            else
              match resp.decodeAuth with
              | .error e => ⟨w, [], [], some req, some e⟩
              | .ok result =>
                ⟨{ w with SteamLogin := result.Token, SteamLoginSecure := result.TokenSecure },
                  [], [Event.WebLoggedOn], some req, none⟩

/-- The accumulated outcome of the goroutine launched by `LogOn`: final
state, all messages written, all events emitted, and the list of performed
`apiLogOn` attempt results in order. -/
structure AsyncResult where
  w : Web
  written : List OutMsg
  events : List Event
  performed : List AttemptResult

/-- The body of the `go func()` in `LogOn`, exactly as unrolled in the
source: attempt once; if the returned error is non-nil attempt again; if
still non-nil attempt a third time; if the final error is non-nil emit one
`WebLogOnErrorEvent` carrying it. Nothing (no sleep, no backoff) happens
between consecutive attempts. -/
def goBody (ext : Ext) (e1 e2 e3 : AttemptEnv) (w : Web) : AsyncResult :=
  let r1 := apiLogOn ext e1 w
  match r1.err with
  | none => ⟨r1.w, r1.written, r1.events, [r1]⟩
  | some _ =>
    let r2 := apiLogOn ext e2 r1.w
    match r2.err with
    | none => ⟨r2.w, r1.written ++ r2.written, r1.events ++ r2.events, [r1, r2]⟩
    | some _ =>
      let r3 := apiLogOn ext e3 r2.w
      match r3.err with
      | none =>
        ⟨r3.w, r1.written ++ r2.written ++ r3.written,
          r1.events ++ r2.events ++ r3.events, [r1, r2, r3]⟩
      | some e =>
        ⟨r3.w, r1.written ++ r2.written ++ r3.written,
          r1.events ++ r2.events ++ r3.events ++ [Event.WebLogOnError e],
          [r1, r2, r3]⟩

/-- The outcome of one call to `(*Web).LogOn`: the synchronous return value
(`none` = `nil`), whether the goroutine was scheduled, and the goroutine's
run-to-completion outcome (trivial when no goroutine was scheduled). -/
structure LogOnCall where
  returned : Option GoError
  scheduled : Bool
  async : AsyncResult

/-- `(*Web).LogOn` from `web.go`: if `webLoginKey` is empty return the
"session not initialized" error synchronously without scheduling anything;
otherwise return `nil` and schedule the goroutine (`goBody`), which takes
one fresh attempt environment per attempt. -/
def LogOn (ext : Ext) (e1 e2 e3 : AttemptEnv) (w : Web) : LogOnCall :=
  if w.webLoginKey = "" then
    ⟨some GoError.sessionNotInit, false, ⟨w, [], [], []⟩⟩
  else
    ⟨none, true, goBody ext e1 e2 e3 w⟩

/-- `pb.CMsgClientNewLoginKey`: the fields read by `handleNewLoginKey`
(`GetUniqueId`, a `uint32`) plus the login key it carries. -/
structure CMsgClientNewLoginKey where
  UniqueId : Nat
  LoginKey : String
deriving DecidableEq, Repr

/-- `pb.CMsgClientRequestWebAPIAuthenticateUserNonceResponse`: the field read
by `handleAuthNonceResponse` (`GetWebapiAuthenticateUserNonce`). -/
structure CMsgClientRequestWebAPIAuthenticateUserNonceResponse where
  WebapiAuthenticateUserNonce : String
deriving DecidableEq, Repr

/-- The result of a packet handler: state after the handler's synchronous
writes, messages written, events emitted, and `Errorf` log lines. -/
structure HandlerResult where
  w : Web
  written : List OutMsg
  events : List Event
  logs : List String
deriving DecidableEq, Repr

/-- The log line of `w.client.Errorf("web: error reading message: %v", err)`. -/
def readErrorLog (e : GoError) : String :=
  "web: error reading message: " ++ e.message

/-- `(*Web).handleNewLoginKey` from `web.go`: on a packet whose proto body
fails to read, log and drop it; otherwise write one
`ClientNewLoginKeyAccepted` acknowledgment carrying the same `UniqueId`, set
`SessionID` to the base-64 encoding of the bytes of the decimal rendering of
the id (`strconv.FormatUint(uint64(id), 10)` then
`base64.StdEncoding.EncodeToString`), and emit one `WebSessionIDEvent`. -/
def handleNewLoginKey (packet : Except GoError CMsgClientNewLoginKey) (w : Web) :
    HandlerResult :=
  match packet with
  | .error e => ⟨w, [], [], [readErrorLog e]⟩
  | .ok msg =>
    let uniqueIDStr := Nat.repr msg.UniqueId
    ⟨{ w with SessionID := base64StdEncode (utf8Bytes uniqueIDStr) },
      [OutMsg.ClientNewLoginKeyAccepted msg.UniqueId], [Event.WebSessionID], []⟩

/-- The result of `handleAuthNonceResponse`: state after the handler's own
synchronous writes (secret overwrite and compare-and-swap; the state of a
scheduled goroutine is inside the recorded `LogOnCall`), the `LogOn`
invocations it made, and its `Errorf` log lines. -/
structure NonceHandlerResult where
  w : Web
  logOnCalls : List LogOnCall
  logs : List String

/-- The log line of `w.client.Errorf("web: error logging on: %v", err)`. -/
def logOnErrorLog (e : GoError) : String :=
  "web: error logging on: " ++ e.message

/-- `(*Web).handleAuthNonceResponse` from `web.go`: on a packet whose proto
body fails to read, log and drop it; otherwise unconditionally overwrite
`webLoginKey` with the delivered nonce, then perform
`atomic.CompareAndSwapUint32(&relogOnNonce, 1, 0)`: if the flag was 1, clear
it and call `LogOn` once, logging a non-nil synchronous return; if the flag
was not 1, do nothing further. -/
def handleAuthNonceResponse (ext : Ext) (e1 e2 e3 : AttemptEnv)
    (packet : Except GoError CMsgClientRequestWebAPIAuthenticateUserNonceResponse)
    (w : Web) : NonceHandlerResult :=
  match packet with
  | .error e => ⟨w, [], [readErrorLog e]⟩
  | .ok msg =>
    let w1 := { w with webLoginKey := msg.WebapiAuthenticateUserNonce }
    if w1.relogOnNonce = 1 then
      let w2 := { w1 with relogOnNonce := 0 }
      let call := LogOn ext e1 e2 e3 w2
      match call.returned with
      | some err => ⟨w2, [call], [logOnErrorLog err]⟩
      | none => ⟨w2, [call], []⟩
    else
      ⟨w1, [], []⟩

/-!
Concrete fixtures used by the witness theorems: a sample external
collaborator record (its crypto functions always succeed), sample attempt
environments for the various HTTP outcomes, and sample `Web` states.
-/

/-- A concrete 32-byte session-key draw. -/
def key32W : Bytes32 := ⟨List.replicate 32 7, rfl⟩

/-- Concrete external collaborators whose crypto calls always succeed. -/
def extW : Ext :=
  ⟨fun _ => ⟨3233, 17⟩,
    fun _ bs => Except.ok bs,
    fun bs => Except.ok ⟨bs⟩,
    fun _ bs => Except.ok bs,
    "76561197960265728"⟩

/-- A 401 response (body irrelevant, here even undecodable). -/
def respW401 : HTTPResponse := ⟨401, "401 Unauthorized", Except.error (GoError.errMsg "no body")⟩

/-- A 200 response with a well-formed body. -/
def respW200 : HTTPResponse := ⟨200, "200 OK", Except.ok ⟨"tokenA", "tokenB"⟩⟩

/-- A 500 response. -/
def respW500 : HTTPResponse :=
  ⟨500, "500 Internal Server Error", Except.error (GoError.errMsg "bad body")⟩

def envW401 : AttemptEnv := ⟨Except.ok key32W, Except.ok respW401⟩

def envW200 : AttemptEnv := ⟨Except.ok key32W, Except.ok respW200⟩

def envW500 : AttemptEnv := ⟨Except.ok key32W, Except.ok respW500⟩

/-- An environment whose `rand.Read` fails. -/
def envWrandFail : AttemptEnv :=
  ⟨Except.error (GoError.errMsg "entropy source failed"),
    Except.error (GoError.errMsg "unreachable")⟩

/-- An environment whose HTTP transport fails. -/
def envWnet : AttemptEnv :=
  ⟨Except.ok key32W, Except.error (GoError.errMsg "dial tcp: connection refused")⟩

/-- A `Web` state with a non-empty secret and previously-set credentials. -/
def wW : Web := ⟨0, "", "oldLogin", "oldSecure", "letmein"⟩

/-- A `Web` state whose secret is empty. -/
def wWempty : Web := ⟨0, "sid", "oldLogin", "oldSecure", ""⟩

/-- A `Web` state with `relogOnNonce = 1` (pending refresh armed). -/
def wWflag : Web := ⟨1, "", "", "", "oldkey"⟩

/-- Any `apiLogOn` attempt either returns `nil`, or it returns an error and
then it has left the `Web` state untouched, written no message and emitted
no event (every error return in the source happens before any state
write). -/
theorem apiLogOn_err_frame (ext : Ext) (env : AttemptEnv) (w : Web) :
    (apiLogOn ext env w).err = none ∨
      ((apiLogOn ext env w).w = w ∧ (apiLogOn ext env w).written = [] ∧
        (apiLogOn ext env w).events = []) := by
  unfold apiLogOn
  repeat' split
  all_goals simp

/-- Claim C1: an exchange attempt whose HTTP response has status 401 sets
`relogOnNonce` to 1, writes exactly one
`ClientRequestWebAPIAuthenticateUserNonce` message, returns `nil`, leaves
the credential fields (and every other field) unchanged, and emits no
event. -/
theorem claim1_status401 (ext : Ext) (env : AttemptEnv) (w : Web)
    (k : Bytes32) (ck : List Nat) (c : Cipher) (cl : List Nat) (resp : HTTPResponse)
    (hk : env.randRead = Except.ok k)
    (hr : ext.RSAEncrypt (ext.GetPublicKey EUniverse.Public) k.bytes = Except.ok ck)
    (hc : ext.NewCipher k.bytes = Except.ok c)
    (hs : ext.SymmetricEncrypt c (utf8Bytes w.webLoginKey) = Except.ok cl)
    (hp : env.postForm = Except.ok resp)
    (h401 : resp.StatusCode = 401) :
    apiLogOn ext env w =
      ⟨{ w with relogOnNonce := 1 },
        [OutMsg.ClientRequestWebAPIAuthenticateUserNonce], [],
        some ⟨"json", ext.steamID, ck, cl⟩, none⟩ := by
  simp [apiLogOn, hk, hr, hc, hs, hp, h401]

/-- Witness for C1 at a concrete environment. -/
theorem claim1_status401_witness :
    apiLogOn extW envW401 wW =
      ⟨{ wW with relogOnNonce := 1 },
        [OutMsg.ClientRequestWebAPIAuthenticateUserNonce], [],
        some ⟨"json", extW.steamID, key32W.bytes, utf8Bytes wW.webLoginKey⟩, none⟩ :=
  claim1_status401 extW envW401 wW key32W key32W.bytes ⟨key32W.bytes⟩
    (utf8Bytes wW.webLoginKey) respW401 rfl rfl rfl rfl rfl rfl

/-- Claim C4: when `webLoginKey` is empty, `LogOn` returns the
"session not initialized" error synchronously, schedules no goroutine,
performs no attempt (hence no network I/O), and leaves the state
unchanged. -/
theorem claim4_empty_secret (ext : Ext) (e1 e2 e3 : AttemptEnv) (w : Web)
    (hw : w.webLoginKey = "") :
    LogOn ext e1 e2 e3 w = ⟨some GoError.sessionNotInit, false, ⟨w, [], [], []⟩⟩ := by
  simp [LogOn, hw]

/-- Witness for C4 at a concrete state. -/
theorem claim4_empty_secret_witness :
    LogOn extW envW401 envW401 envW401 wWempty =
      ⟨some GoError.sessionNotInit, false, ⟨wWempty, [], [], []⟩⟩ :=
  claim4_empty_secret extW envW401 envW401 envW401 wWempty rfl

/-- Claim C5: an exchange attempt whose HTTP response has status 200 and a
body decoding to `{ authenticateuser: { token, tokensecure } }` overwrites
both `SteamLogin` and `SteamLoginSecure` wholesale with the decoded values
and emits exactly one `WebLoggedOnEvent`. -/
theorem claim5_status200 (ext : Ext) (env : AttemptEnv) (w : Web)
    (k : Bytes32) (ck : List Nat) (c : Cipher) (cl : List Nat) (resp : HTTPResponse)
    (res : AuthenticateUserResult)
    (hk : env.randRead = Except.ok k)
    (hr : ext.RSAEncrypt (ext.GetPublicKey EUniverse.Public) k.bytes = Except.ok ck)
    (hc : ext.NewCipher k.bytes = Except.ok c)
    (hs : ext.SymmetricEncrypt c (utf8Bytes w.webLoginKey) = Except.ok cl)
    (hp : env.postForm = Except.ok resp)
    (h200 : resp.StatusCode = 200)
    (hd : resp.decodeAuth = Except.ok res) :
    apiLogOn ext env w =
      ⟨{ w with SteamLogin := res.Token, SteamLoginSecure := res.TokenSecure },
        [], [Event.WebLoggedOn], some ⟨"json", ext.steamID, ck, cl⟩, none⟩ := by
  simp [apiLogOn, hk, hr, hc, hs, hp, h200, hd]

/-- Witness for C5 at a concrete environment: the previously-set credential
values of `wW` are fully replaced. -/
theorem claim5_status200_witness :
    apiLogOn extW envW200 wW =
      ⟨{ wW with SteamLogin := "tokenA", SteamLoginSecure := "tokenB" },
        [], [Event.WebLoggedOn],
        some ⟨"json", extW.steamID, key32W.bytes, utf8Bytes wW.webLoginKey⟩, none⟩ :=
  claim5_status200 extW envW200 wW key32W key32W.bytes ⟨key32W.bytes⟩
    (utf8Bytes wW.webLoginKey) respW200 ⟨"tokenA", "tokenB"⟩ rfl rfl rfl rfl rfl rfl rfl

/-- Claim C8: if the randomness, RSA-encryption, cipher-construction or
symmetric-encryption step fails, the attempt returns that error through the
same error path as an HTTP failure, before any HTTP request is issued
(`request = none`, so no partial payload is sent), and the state is
unchanged. -/
theorem claim8_crypto_failure (ext : Ext) (env : AttemptEnv) (w : Web) (e : GoError)
    (hfail :
      env.randRead = Except.error e
      ∨ (∃ k, env.randRead = Except.ok k ∧
          ext.RSAEncrypt (ext.GetPublicKey EUniverse.Public) k.bytes = Except.error e)
      ∨ (∃ k ck, env.randRead = Except.ok k ∧
          ext.RSAEncrypt (ext.GetPublicKey EUniverse.Public) k.bytes = Except.ok ck ∧
          ext.NewCipher k.bytes = Except.error e)
      ∨ (∃ k ck c, env.randRead = Except.ok k ∧
          ext.RSAEncrypt (ext.GetPublicKey EUniverse.Public) k.bytes = Except.ok ck ∧
          ext.NewCipher k.bytes = Except.ok c ∧
          ext.SymmetricEncrypt c (utf8Bytes w.webLoginKey) = Except.error e)) :
    apiLogOn ext env w = ⟨w, [], [], none, some e⟩ := by
  rcases hfail with h | ⟨k, h1, h2⟩ | ⟨k, ck, h1, h2, h3⟩ | ⟨k, ck, c, h1, h2, h3, h4⟩
  · simp [apiLogOn, h]
  · simp [apiLogOn, h1, h2]
  · simp [apiLogOn, h1, h2, h3]
  · simp [apiLogOn, h1, h2, h3, h4]

/-- Witness for C8: a failing `rand.Read`. -/
theorem claim8_crypto_failure_witness :
    apiLogOn extW envWrandFail wW =
      ⟨wW, [], [], none, some (GoError.errMsg "entropy source failed")⟩ :=
  claim8_crypto_failure extW envWrandFail wW (GoError.errMsg "entropy source failed")
    (Or.inl rfl)

/-- Claim C9: an exchange attempt whose HTTP response has a status other
than 200 or 401, or status 200 with an undecodable body, returns an error
and leaves the state (credentials, `SessionID`, `webLoginKey`,
`relogOnNonce`) unchanged, writing no message and emitting no event. -/
theorem claim9_protocol_error (ext : Ext) (env : AttemptEnv) (w : Web)
    (k : Bytes32) (ck : List Nat) (c : Cipher) (cl : List Nat) (resp : HTTPResponse)
    (hk : env.randRead = Except.ok k)
    (hr : ext.RSAEncrypt (ext.GetPublicKey EUniverse.Public) k.bytes = Except.ok ck)
    (hc : ext.NewCipher k.bytes = Except.ok c)
    (hs : ext.SymmetricEncrypt c (utf8Bytes w.webLoginKey) = Except.ok cl)
    (hp : env.postForm = Except.ok resp)
    (hbad : (resp.StatusCode ≠ 401 ∧ resp.StatusCode ≠ 200) ∨
      (resp.StatusCode = 200 ∧ ∃ e, resp.decodeAuth = Except.error e)) :
    (∃ e, (apiLogOn ext env w).err = some e) ∧
      (apiLogOn ext env w).w = w ∧ (apiLogOn ext env w).written = [] ∧
      (apiLogOn ext env w).events = [] := by
  rcases hbad with ⟨h1, h2⟩ | ⟨h1, e, h2⟩
  · simp [apiLogOn, hk, hr, hc, hs, hp, h1, h2]
  · simp [apiLogOn, hk, hr, hc, hs, hp, h1, h2]

/-- Witness for C9 at a concrete 500 response. -/
theorem claim9_protocol_error_witness :
    (∃ e, (apiLogOn extW envW500 wW).err = some e) ∧
      (apiLogOn extW envW500 wW).w = wW ∧ (apiLogOn extW envW500 wW).written = [] ∧
      (apiLogOn extW envW500 wW).events = [] :=
  claim9_protocol_error extW envW500 wW key32W key32W.bytes ⟨key32W.bytes⟩
    (utf8Bytes wW.webLoginKey) respW500 rfl rfl rfl rfl rfl
    (Or.inl (by constructor <;> decide))

/-- Claim C3: one `LogOn` call with a non-empty secret performs at most
three sequential attempts; the first attempt returning `nil` (as a 401
stale-secret outcome does) ends the sequence immediately, so a later
attempt runs only when every earlier attempt returned a hard error; the
attempts are composed directly with nothing between them (the source has no
sleep or backoff); and when all three attempts return hard errors, the
goroutine emits exactly one `WebLogOnErrorEvent` carrying the last error. -/
theorem claim3_triple_retry (ext : Ext) (e1 e2 e3 : AttemptEnv) (w : Web)
    (hw : w.webLoginKey ≠ "") :
    (LogOn ext e1 e2 e3 w).async.performed.length ≤ 3
    ∧ ((apiLogOn ext e1 w).err = none →
        (LogOn ext e1 e2 e3 w).async.performed = [apiLogOn ext e1 w])
    ∧ (2 ≤ (LogOn ext e1 e2 e3 w).async.performed.length →
        (apiLogOn ext e1 w).err ≠ none)
    ∧ (3 ≤ (LogOn ext e1 e2 e3 w).async.performed.length →
        (apiLogOn ext e1 w).err ≠ none ∧ (apiLogOn ext e2 w).err ≠ none)
    ∧ (∀ x y z : GoError,
        (apiLogOn ext e1 w).err = some x → (apiLogOn ext e2 w).err = some y →
        (apiLogOn ext e3 w).err = some z →
        (LogOn ext e1 e2 e3 w).async.events = [Event.WebLogOnError z]
        ∧ (LogOn ext e1 e2 e3 w).async.performed.length = 3) := by
  have hL : (LogOn ext e1 e2 e3 w).async = goBody ext e1 e2 e3 w := by
    simp [LogOn, hw]
  rw [hL]
  cases h1 : (apiLogOn ext e1 w).err with
  | none =>
    refine ⟨?_, ?_, ?_, ?_, ?_⟩ <;> simp [goBody, h1]
  | some x0 =>
    rcases apiLogOn_err_frame ext e1 w with hf1 | ⟨hw1, _, hev1⟩
    · rw [h1] at hf1; exact absurd hf1 (by simp)
    · cases h2 : (apiLogOn ext e2 w).err with
      | none =>
        refine ⟨?_, ?_, ?_, ?_, ?_⟩ <;> simp [goBody, h1, hw1, h2]
      | some y0 =>
        rcases apiLogOn_err_frame ext e2 w with hf2 | ⟨hw2, _, hev2⟩
        · rw [h2] at hf2; exact absurd hf2 (by simp)
        · cases h3 : (apiLogOn ext e3 w).err with
          | none =>
            refine ⟨?_, ?_, ?_, ?_, ?_⟩ <;>
              simp [goBody, h1, hw1, h2, hw2, h3, hev1, hev2]
          | some z0 =>
            rcases apiLogOn_err_frame ext e3 w with hf3 | ⟨_, _, hev3⟩
            · rw [h3] at hf3; exact absurd hf3 (by simp)
            · refine ⟨?_, ?_, ?_, ?_, ?_⟩ <;>
                simp [goBody, h1, hw1, h2, hw2, h3, hev1, hev2, hev3]

/-- Witness for C3: three consecutive transport failures produce exactly one
failure event carrying the last error, after exactly three attempts. -/
theorem claim3_triple_retry_witness :
    (LogOn extW envWnet envWnet envWnet wW).async.events
        = [Event.WebLogOnError (GoError.errMsg "dial tcp: connection refused")]
    ∧ (LogOn extW envWnet envWnet envWnet wW).async.performed.length = 3 :=
  (claim3_triple_retry extW envWnet envWnet envWnet wW (by decide)).2.2.2.2
    (GoError.errMsg "dial tcp: connection refused")
    (GoError.errMsg "dial tcp: connection refused")
    (GoError.errMsg "dial tcp: connection refused") rfl rfl rfl

/-- Claim C7: every attempt performed by one `LogOn` call is `apiLogOn` run
on that attempt's own fresh environment (the session key is drawn anew from
`crypto/rand` per attempt, never reused or cached); and whenever the crypto
pipeline of an attempt succeeds, the key is exactly 32 bytes, and the
issued request carries the RSA encryption of that key under
`GetPublicKey(EUniverse_Public)` and the symmetric encryption (under an AES
cipher keyed by that same key) of the UTF-8 bytes of the current secret. -/
theorem claim7_fresh_key (ext : Ext) (e1 e2 e3 : AttemptEnv) (w : Web)
    (hw : w.webLoginKey ≠ "") :
    ((LogOn ext e1 e2 e3 w).async.performed =
      ([e1, e2, e3].take (LogOn ext e1 e2 e3 w).async.performed.length).map
        (fun env => apiLogOn ext env w))
    ∧ (∀ env : AttemptEnv, ∀ k : Bytes32, ∀ ck : List Nat, ∀ c : Cipher, ∀ cl : List Nat,
        env.randRead = Except.ok k →
        ext.RSAEncrypt (ext.GetPublicKey EUniverse.Public) k.bytes = Except.ok ck →
        ext.NewCipher k.bytes = Except.ok c →
        ext.SymmetricEncrypt c (utf8Bytes w.webLoginKey) = Except.ok cl →
        k.bytes.length = 32 ∧
        (apiLogOn ext env w).request = some ⟨"json", ext.steamID, ck, cl⟩) := by
  constructor
  · have hL : (LogOn ext e1 e2 e3 w).async = goBody ext e1 e2 e3 w := by
      simp [LogOn, hw]
    rw [hL]
    cases h1 : (apiLogOn ext e1 w).err with
    | none => simp [goBody, h1]
    | some x0 =>
      rcases apiLogOn_err_frame ext e1 w with hf1 | ⟨hw1, _, _⟩
      · rw [h1] at hf1; exact absurd hf1 (by simp)
      · cases h2 : (apiLogOn ext e2 w).err with
        | none => simp [goBody, h1, hw1, h2]
        | some y0 =>
          rcases apiLogOn_err_frame ext e2 w with hf2 | ⟨hw2, _, _⟩
          · rw [h2] at hf2; exact absurd hf2 (by simp)
          · cases h3 : (apiLogOn ext e3 w).err with
            | none => simp [goBody, h1, hw1, h2, hw2, h3]
            | some z0 => simp [goBody, h1, hw1, h2, hw2, h3]
  · intro env k ck c cl hk hr hc hs
    refine ⟨k.len32, ?_⟩
    cases hp : env.postForm with
    | error e => simp [apiLogOn, hk, hr, hc, hs, hp]
    | ok resp =>
      by_cases h401 : resp.StatusCode = 401
      · simp [apiLogOn, hk, hr, hc, hs, hp, h401]
      · by_cases h200 : resp.StatusCode = 200
        · cases hd : resp.decodeAuth with
          | error e => simp [apiLogOn, hk, hr, hc, hs, hp, h401, h200, hd]
          | ok res => simp [apiLogOn, hk, hr, hc, hs, hp, h401, h200, hd]
        · simp [apiLogOn, hk, hr, hc, hs, hp, h401, h200]

/-- Witness for C7: the concrete attempt issues a request built from the
32-byte key and the encrypted secret. -/
theorem claim7_fresh_key_witness :
    key32W.bytes.length = 32 ∧
      (apiLogOn extW envW200 wW).request =
        some ⟨"json", extW.steamID, key32W.bytes, utf8Bytes wW.webLoginKey⟩ :=
  (claim7_fresh_key extW envW200 envW200 envW200 wW (by decide)).2
    envW200 key32W key32W.bytes ⟨key32W.bytes⟩ (utf8Bytes wW.webLoginKey)
    rfl rfl rfl rfl

/-- Claim C2: a well-formed "secret refresh response" unconditionally
overwrites `webLoginKey` with the delivered value and compare-and-swaps
`relogOnNonce` from 1 to 0: when the flag was 1, exactly one automatic
`LogOn` call is made on the updated state, the flag ends at 0 (a
synchronous error from that call is only logged and never re-arms it); when
the flag was not 1, no `LogOn` call is made and only the cached secret
changes. -/
theorem claim2_nonce_response (ext : Ext) (e1 e2 e3 : AttemptEnv) (w : Web)
    (nonce : String) :
    (handleAuthNonceResponse ext e1 e2 e3 (Except.ok ⟨nonce⟩) w).w.webLoginKey = nonce
    ∧ (w.relogOnNonce = 1 →
        (handleAuthNonceResponse ext e1 e2 e3 (Except.ok ⟨nonce⟩) w).logOnCalls =
          [LogOn ext e1 e2 e3 { w with webLoginKey := nonce, relogOnNonce := 0 }]
        ∧ (handleAuthNonceResponse ext e1 e2 e3 (Except.ok ⟨nonce⟩) w).w.relogOnNonce = 0
        ∧ (∀ er : GoError,
            (LogOn ext e1 e2 e3 { w with webLoginKey := nonce, relogOnNonce := 0 }).returned
              = some er →
            (handleAuthNonceResponse ext e1 e2 e3 (Except.ok ⟨nonce⟩) w).logs =
              [logOnErrorLog er]))
    ∧ (w.relogOnNonce ≠ 1 →
        (handleAuthNonceResponse ext e1 e2 e3 (Except.ok ⟨nonce⟩) w).logOnCalls = []
        ∧ (handleAuthNonceResponse ext e1 e2 e3 (Except.ok ⟨nonce⟩) w).w =
            { w with webLoginKey := nonce }) := by
  by_cases hflag : w.relogOnNonce = 1
  · cases hcall :
        (LogOn ext e1 e2 e3 { w with webLoginKey := nonce, relogOnNonce := 0 }).returned with
    | none =>
      refine ⟨?_, ?_, ?_⟩ <;> simp [handleAuthNonceResponse, hflag, hcall]
    | some er0 =>
      refine ⟨?_, ?_, ?_⟩ <;> simp [handleAuthNonceResponse, hflag, hcall]
  · refine ⟨?_, ?_, ?_⟩ <;> simp [handleAuthNonceResponse, hflag]

/-- Witness for C2: a refresh delivered while the flag is armed clears the
flag, stores the new secret and makes exactly one `LogOn` call. -/
theorem claim2_nonce_response_witness :
    (handleAuthNonceResponse extW envW200 envW200 envW200
        (Except.ok ⟨"newkey"⟩) wWflag).w.webLoginKey = "newkey"
    ∧ (handleAuthNonceResponse extW envW200 envW200 envW200
        (Except.ok ⟨"newkey"⟩) wWflag).w.relogOnNonce = 0
    ∧ (handleAuthNonceResponse extW envW200 envW200 envW200
        (Except.ok ⟨"newkey"⟩) wWflag).logOnCalls =
        [LogOn extW envW200 envW200 envW200
          { wWflag with webLoginKey := "newkey", relogOnNonce := 0 }] :=
  have h := claim2_nonce_response extW envW200 envW200 envW200 wWflag "newkey"
  ⟨h.1, (h.2.1 rfl).2.1, (h.2.1 rfl).1⟩

/-- Claim C6: a well-formed "new login key" message carrying unique id `n`
(a `uint32`) makes the handler write exactly one
`ClientNewLoginKeyAccepted` acknowledgment carrying the same `n`, set
`SessionID` to the standard base-64 encoding of the UTF-8 bytes of the
decimal rendering of `n`, and emit exactly one `WebSessionIDEvent`. -/
theorem claim6_new_login_key (w : Web) (n : Nat) (lk : String) (hn : n < 2 ^ 32) :
    handleNewLoginKey (Except.ok ⟨n, lk⟩) w =
      ⟨{ w with SessionID := base64StdEncode (utf8Bytes (Nat.repr n)) },
        [OutMsg.ClientNewLoginKeyAccepted n], [Event.WebSessionID], []⟩ := by
  have _hn := hn
  simp [handleNewLoginKey]

/-- Witness for C6 at id 12345: the session id is the base-64 encoding of
the string "12345". -/
theorem claim6_new_login_key_witness :
    12345 < 2 ^ 32 ∧
      handleNewLoginKey (Except.ok ⟨12345, ""⟩) wW =
        ⟨{ wW with SessionID := "MTIzNDU=" },
          [OutMsg.ClientNewLoginKeyAccepted 12345], [Event.WebSessionID], []⟩ :=
  ⟨by norm_num, by
    rw [claim6_new_login_key wW 12345 "" (by norm_num)]
    decide⟩

/-- Claim C10: a "secret refresh response" delivering the empty string while
`relogOnNonce = 1` overwrites the secret with the empty string, clears the
flag, and the automatic `LogOn` re-invocation fails synchronously with the
"session not initialized" error, which is only logged: no goroutine is
scheduled, no attempt is performed, no event (in particular no
`WebLogOnErrorEvent`) is emitted, and the flag stays 0, so the stale-secret
recovery silently terminates. -/
theorem claim10_empty_nonce (ext : Ext) (e1 e2 e3 : AttemptEnv) (w : Web)
    (hflag : w.relogOnNonce = 1) :
    handleAuthNonceResponse ext e1 e2 e3 (Except.ok ⟨""⟩) w =
      ⟨{ w with webLoginKey := "", relogOnNonce := 0 },
        [⟨some GoError.sessionNotInit, false,
          ⟨{ w with webLoginKey := "", relogOnNonce := 0 }, [], [], []⟩⟩],
        [logOnErrorLog GoError.sessionNotInit]⟩ := by
  simp [handleAuthNonceResponse, hflag, LogOn]

/-- Witness for C10 at a concrete armed state. -/
theorem claim10_empty_nonce_witness :
    handleAuthNonceResponse extW envW200 envW200 envW200 (Except.ok ⟨""⟩) wWflag =
      ⟨{ wWflag with webLoginKey := "", relogOnNonce := 0 },
        [⟨some GoError.sessionNotInit, false,
          ⟨{ wWflag with webLoginKey := "", relogOnNonce := 0 }, [], [], []⟩⟩],
        [logOnErrorLog GoError.sessionNotInit]⟩ :=
  claim10_empty_nonce extW envW200 envW200 envW200 wWflag rfl

end GoSteamWeb
